import Mathlib

/-!
Verification development for the APIFuzzer repository (src/fuzzer.py).

The file shallowly embeds the orchestration script src/fuzzer.py: the
`Fuzzer` class (`__init__`, `prepare`, `run`), the `__main__` block
(definition-source selection, argument defaults, the SIGINT handler
`sys.exit(0)`, the missing-source branch), and models the collaborating
modules (`apifuzzer.swagger_template_generator`, `apifuzzer.server_fuzzer`,
the mutation machinery) from the specification, since those modules are not
part of the analysed source tree.  Definitions marked "Modelled from the
spec:" follow the specification's words for components whose code is absent.
-/

namespace APIFuzzer

/-- HTTP headers as an ordered association list (models a Python dict of
header name/value pairs as handed to `FuzzerTarget`). -/
abbrev Headers := List (String × String)

/-- Schema primitive kinds recognised by the normalizer.
Modelled from the spec: §3 Parameter Descriptor, "schema kind
(string/integer/number/boolean/array/object)". -/
inductive SchemaKind
  | stringKind
  | integerKind
  | numberKind
  | booleanKind
  | arrayKind
  | objectKind
deriving DecidableEq

/-- Modelled from the spec: §4.1, a declared schema kind that is not in the
fixed enumeration is unrecognized and fatal. -/
def parseKind (s : String) : Option SchemaKind :=
  if s = "string" then some SchemaKind.stringKind
  else if s = "integer" then some SchemaKind.integerKind
  else if s = "number" then some SchemaKind.numberKind
  else if s = "boolean" then some SchemaKind.booleanKind
  else if s = "array" then some SchemaKind.arrayKind
  else if s = "object" then some SchemaKind.objectKind
  else none

/-- Modelled from the spec: §3 Parameter Descriptor invariant,
"location ∈ fixed enumeration" (path/query/header/body). -/
def validLocation (s : String) : Bool :=
  s = "path" || s = "query" || s = "header" || s = "body"

/-- Raw (unnormalized) parameter of an operation, as read from the parsed
JSON API definition. -/
structure RawParam where
  name : String
  location : String
  kind : String
  required : Bool
  enumValues : Option (List String)
deriving DecidableEq

/-- Raw (unnormalized) operation of the API definition.  The `path` field is
a required structural key: `none` represents an API definition in which the
key is absent (a malformed definition). -/
structure RawOperation where
  method : String
  path : Option String
  params : List RawParam
deriving DecidableEq

/-- A parsed API definition (the in-memory JSON structure handed to the
`Fuzzer` as `api_resources`). -/
structure ApiDef where
  host : Option String
  basePath : String
  operations : List RawOperation
deriving DecidableEq

/-- Modelled from the spec: §7 error taxonomy, `SchemaError`
(malformed/unsupported API definition, fatal). -/
inductive SchemaError
  | missingPath (method : String)
  | unknownKind (kind : String)
deriving DecidableEq

/-- Modelled from the spec: §7 error taxonomy, `TemplateCompileError`
(a specific operation cannot be turned into a safe template). -/
inductive TemplateCompileError
  | invalidLocation (location : String)
  | emptyRequiredEnum (name : String)
deriving DecidableEq

/-- Normalized parameter descriptor (spec §3): kind already parsed,
location kept raw and checked by the template compiler. -/
structure Parameter where
  name : String
  location : String
  kind : SchemaKind
  required : Bool
  enumValues : Option (List String)
deriving DecidableEq

/-- Normalized Operation (spec §3): method, path and parameter list. -/
structure Operation where
  method : String
  path : String
  params : List Parameter
deriving DecidableEq

/-- Modelled from the spec: §4.1 Schema Normalizer, parameter part: fails
with `SchemaError` when the declared schema kind is unrecognized. -/
def normalizeParam (p : RawParam) : Except SchemaError Parameter :=
  match parseKind p.kind with
  | none => Except.error (SchemaError.unknownKind p.kind)
  | some k =>
      Except.ok { name := p.name, location := p.location, kind := k,
                  required := p.required, enumValues := p.enumValues }

/-- Normalizes a parameter list, stopping at the first `SchemaError`. -/
def normalizeParams : List RawParam → Except SchemaError (List Parameter)
  | [] => Except.ok []
  | p :: rest =>
      match normalizeParam p with
      | Except.error e => Except.error e
      | Except.ok q =>
          match normalizeParams rest with
          | Except.error e => Except.error e
          | Except.ok qs => Except.ok (q :: qs)

/-- Modelled from the spec: §4.1 Schema Normalizer, operation part: fails
with `SchemaError` when the required path key is absent. -/
def normalizeOperation (o : RawOperation) : Except SchemaError Operation :=
  match o.path with
  | none => Except.error (SchemaError.missingPath o.method)
  | some pth =>
      match normalizeParams o.params with
      | Except.error e => Except.error e
      | Except.ok ps => Except.ok { method := o.method, path := pth, params := ps }

/-- Normalizes the operations of a definition in declaration order. -/
def normalizeOperations : List RawOperation → Except SchemaError (List Operation)
  | [] => Except.ok []
  | o :: rest =>
      match normalizeOperation o with
      | Except.error e => Except.error e
      | Except.ok op =>
          match normalizeOperations rest with
          | Except.error e => Except.error e
          | Except.ok ops => Except.ok (op :: ops)

/-- Modelled from the spec: §4.1, the Schema Normalizer as a pure
transformation of the raw definition into an ordered sequence of
Operations. -/
def normalize (d : ApiDef) : Except SchemaError (List Operation) :=
  normalizeOperations d.operations

/-- Modelled from the spec: §4.2, the per-parameter failure conditions of
the Template Compiler: an invalid parameter location, or a required enum
with an empty value set. -/
def paramCompileError (p : Parameter) : Option TemplateCompileError :=
  if validLocation p.location = false then
    some (TemplateCompileError.invalidLocation p.location)
  else
    match p.enumValues with
    | some [] => if p.required then some (TemplateCompileError.emptyRequiredEnum p.name) else none
    | _ => none

/-- First compile error among a parameter list, if any. -/
def findParamError : List Parameter → Option TemplateCompileError
  | [] => none
  | p :: rest =>
      match paramCompileError p with
      | some e => some e
      | none => findParamError rest

/-- A Fuzz Template (spec §3): the operation it came from together with its
ordered list of mutable fields. -/
structure FuzzTemplate where
  op : Operation
  mutableFields : List Parameter
deriving DecidableEq

/-- Modelled from the spec: §4.2 Template Compiler, "given one Operation,
produces exactly one Fuzz Template", failing with `TemplateCompileError` on
an invalid parameter location or a required enum with no values. -/
def compileOperation (op : Operation) : Except TemplateCompileError FuzzTemplate :=
  match findParamError op.params with
  | some e => Except.error e
  | none => Except.ok { op := op, mutableFields := op.params }

/-- Modelled from the spec: SwaggerTemplateGenerator.process_api_resources
is not under src/; per §4.2/§7 each operation yields one template, failing
operations are skipped, counted and reported, never silently dropped.
Returns the compiled templates in operation order together with the number
of operations that failed with `TemplateCompileError`. -/
def compileOperations : List Operation → List FuzzTemplate × Nat
  | [] => ([], 0)
  | op :: rest =>
      let r := compileOperations rest
      match compileOperation op with
      | Except.ok t => (t :: r.1, r.2)
      | Except.error _ => (r.1, r.2 + 1)

/-- Modelled from the spec: SwaggerTemplateGenerator.compile_base_url is not
under src/; per §4.2 base-URL resolution, the operator-supplied override URL
always takes precedence when present, otherwise the server/host declared in
the definition is used. -/
def compileBaseUrl (d : ApiDef) (alternate_url : Option String) : String :=
  match alternate_url with
  | some u => u
  | none => "http://" ++ d.host.getD "localhost" ++ d.basePath

/-- The whole template-generation pass run by `Fuzzer.prepare` (modelled
from the spec, see `normalize` and `compileOperations`): normalize, then
compile every operation, counting compile failures. -/
def processApiResources (d : ApiDef) : Except SchemaError (List FuzzTemplate × Nat) :=
  match normalize d with
  | Except.error e => Except.error e
  | Except.ok ops => Except.ok (compileOperations ops)

/-- The `Fuzzer` object of src/fuzzer.py (fields set in `__init__`,
lines 22-34; `log_level`/`basic_output` only configure the logger and carry
no further state). -/
structure Fuzzer where
  api_resources : ApiDef
  base_url : Option String
  alternate_url : Option String
  templates : Option (List FuzzTemplate)
  test_level : Int
  report_dir : String
  test_result_dst : Option String
  auth_headers : Headers
deriving DecidableEq

/-- Embeds `Fuzzer.__init__` (src/fuzzer.py lines 22-34): stores the
arguments, leaves `base_url` and `templates` unset (`None`), and replaces a
falsy `auth_headers` argument (Python `None` or an empty mapping) by an
empty header mapping via `auth_headers if auth_headers else {}`. -/
def Fuzzer.init (api_resources : ApiDef) (report_dir : String) (test_level : Int)
    (alternate_url : Option String) (test_result_dst : Option String)
    (auth_headers : Option Headers) : Fuzzer :=
  { api_resources := api_resources
    base_url := none
    alternate_url := alternate_url
    templates := none
    test_level := test_level
    report_dir := report_dir
    test_result_dst := test_result_dst
    auth_headers :=
      match auth_headers with
      | none => []
      | some h => if h.isEmpty then [] else h }

/-- Embeds `Fuzzer.prepare` (src/fuzzer.py lines 36-41): runs the template
generator over `api_resources` (which may raise a `SchemaError`), stores the
compiled templates, and compiles the base URL from the definition and the
`alternate_url` override. -/
def Fuzzer.prepare (f : Fuzzer) : Except SchemaError Fuzzer :=
  match processApiResources f.api_resources with
  | Except.error e => Except.error e
  | Except.ok r =>
      Except.ok { f with
        templates := some r.1
        base_url := some (compileBaseUrl f.api_resources f.alternate_url) }

/-- Boolean view of whether `prepare` raises a `SchemaError`. -/
def prepareErrored (f : Fuzzer) : Bool :=
  match f.prepare with
  | Except.error _ => true
  | Except.ok _ => false

/-- The base URL stored by a successful `prepare`, `none` when `prepare`
fails. -/
def baseUrlAfterPrepare (f : Fuzzer) : Option String :=
  match f.prepare with
  | Except.error _ => none
  | Except.ok g => g.base_url

/-- A compiled kitty template, as returned by `template.compile_template()`
in `Fuzzer.run` (the compiled form wraps the Fuzz Template). -/
structure CompiledTemplate where
  template : FuzzTemplate
deriving DecidableEq

/-- Embeds `template.compile_template()` as the injection of a Fuzz Template
into its compiled form. -/
def FuzzTemplate.compile_template (t : FuzzTemplate) : CompiledTemplate :=
  { template := t }

/-- Events performed by `Fuzzer.run` (src/fuzzer.py lines 43-54), in
program order. -/
inductive RunEvent
  | targetConstructed (base_url : Option String) (headers : Headers)
  | interfaceConstructed
  | modelConstructed
  | connect (t : CompiledTemplate)
  | setModel
  | setTarget
  | setInterface
  | start
deriving DecidableEq

/-- The events of `Fuzzer.run` before `fuzzer.start()`: construct the
target, the web interface and the graph model, then connect each compiled
template to the model in template order, then wire model, target and
interface into the fuzzer (src/fuzzer.py lines 44-53). -/
def runBuildPhase (f : Fuzzer) : List RunEvent :=
  RunEvent.targetConstructed f.base_url f.auth_headers ::
  RunEvent.interfaceConstructed ::
  RunEvent.modelConstructed ::
  ((f.templates.getD []).map (fun t => RunEvent.connect t.compile_template) ++
    [RunEvent.setModel, RunEvent.setTarget, RunEvent.setInterface])

/-- Embeds `Fuzzer.run` (src/fuzzer.py lines 43-54) as its ordered event
trace: the whole build phase followed by `fuzzer.start()` as the last
event. -/
def Fuzzer.runEvents (f : Fuzzer) : List RunEvent :=
  runBuildPhase f ++ [RunEvent.start]

/-- Extracts the template of a `connect` event. -/
def connectOf : RunEvent → Option CompiledTemplate
  | RunEvent.connect t => some t
  | _ => none

/-- The ordered list of templates connected to the graph model by an event
trace. -/
def connectsOf (es : List RunEvent) : List CompiledTemplate :=
  es.filterMap connectOf

/-- Embeds `signal_handler` (src/fuzzer.py lines 70-71): on a signal the
handler calls `sys.exit(0)`; the returned value is the process exit code it
requests.  The handler runs asynchronously: `sys.exit` raises `SystemExit`
at once in the main thread, so nothing after the point of delivery runs. -/
def signal_handler (sig : Nat) (frame : Unit) : Nat := 0

/-- Result of the fuzzing loop: request indices dispatched, request indices
whose responses were fully received, finding indices persisted to the report
destination, whether a draining phase ran, and the process exit code. -/
structure FuzzLoopResult where
  dispatched : List Nat
  completed : List Nat
  flushed : List Nat
  draining : Bool
  exitCode : Nat
deriving DecidableEq

/-- Modelled from the spec: the fuzzing loop of
`OpenApiServerFuzzer.start()` is not under src/; per §4.6 it walks the
planned requests sequentially, dispatching each, classifying its response
and persisting a Finding at once when the result is anomalous.  The SIGINT
handling is embedded from src/fuzzer.py lines 70-71 and 156: the installed
handler calls `sys.exit(0)`, which raises `SystemExit` immediately, so a
signal delivered while request `k` is in flight leaves request `k`
dispatched but never completed, runs no draining phase, and ends the
process with the handler's exit code.  `interruptDuring = some k` means the
signal arrives while request `k` is in flight (or after the loop when
`k ≥ planned`); `none` means no signal arrives. -/
def fuzzLoop (planned : Nat) (anomalous : Nat → Bool) (interruptDuring : Option Nat) :
    FuzzLoopResult :=
  match interruptDuring with
  | none =>
      { dispatched := List.range planned
        completed := List.range planned
        flushed := (List.range planned).filter anomalous
        draining := false
        exitCode := 0 }
  | some k =>
      if k < planned then
        { dispatched := List.range (k + 1)
          completed := List.range k
          flushed := (List.range k).filter anomalous
          draining := false
          exitCode := signal_handler 2 () }
      else
        { dispatched := List.range planned
          completed := List.range planned
          flushed := (List.range planned).filter anomalous
          draining := false
          exitCode := signal_handler 2 () }

/-- The command-line arguments of src/fuzzer.py (lines 81-137), with the
argparse defaults: `level` defaults to 1 (line 104), the sources, override
URL, result destination and headers default to `None`. -/
structure Args where
  src_file : Option String := none
  src_url : Option String := none
  report_dir : String := "/tmp/apifuzzer-report"
  level : Int := 1
  alternate_url : Option String := none
  test_result_dst : Option String := none
  headers : Option Headers := none
deriving DecidableEq

/-- The argparse defaults as one record. -/
def defaultArgs : Args := {}

/-- Python truthiness of an optional string argument: `None` and the empty
string are falsy. -/
def strTruthy : Option String → Bool
  | none => false
  | some s => if s = "" then false else true

/-- Where the API definition comes from. -/
inductive SourceChoice
  | fromFile (p : String)
  | fromUrl (u : String)
  | noSource
deriving DecidableEq

/-- Embeds the definition-source selection of `__main__` (src/fuzzer.py
lines 139-145): `if args.src_file: ... elif args.src_url: ... else: ...`. -/
def selectApiSource (a : Args) : SourceChoice :=
  if strTruthy a.src_file then SourceChoice.fromFile (a.src_file.getD "")
  else if strTruthy a.src_url then SourceChoice.fromUrl (a.src_url.getD "")
  else SourceChoice.noSource

/-- Network traffic: the definition fetch performed by
`save_api_definition` when the source is a URL, and any HTTP call made by
the Target Client. -/
inductive NetEvent
  | defFetch (url : String)
  | targetCall
deriving DecidableEq

/-- Observable outcome of one process run of src/fuzzer.py. -/
structure MainResult where
  exitCode : Nat
  errorMessage : Option String
  netEvents : List NetEvent
  ranLoop : Bool
  draining : Bool
deriving DecidableEq

/-- The environment of a run: the definitions behind file paths and URLs,
the response classification, and whether/when a SIGINT arrives during the
fuzzing loop. -/
structure World where
  fileDefs : String → ApiDef
  urlDefs : String → ApiDef
  anomalous : Nat → Bool
  interruptDuring : Option Nat

/-- Embeds the `Fuzzer(...)` construction of `__main__` (src/fuzzer.py
lines 146-154). -/
def mkFuzzer (d : ApiDef) (a : Args) : Fuzzer :=
  Fuzzer.init d a.report_dir a.level a.alternate_url a.test_result_dst a.headers

/-- Embeds `__main__` from the `Fuzzer(...)` construction on
(src/fuzzer.py lines 146-157): `prog.prepare()` runs first; an uncaught
`SchemaError` terminates the interpreter with exit code 1 before any target
call; otherwise the SIGINT handler is installed and `prog.run()` drives the
fuzzing loop (one planned request per compiled template in this model). -/
def mainWithDef (w : World) (a : Args) (d : ApiDef) (pre : List NetEvent) : MainResult :=
  match (mkFuzzer d a).prepare with
  | Except.error _ =>
      { exitCode := 1
        errorMessage := some "SchemaError"
        netEvents := pre
        ranLoop := false
        draining := false }
  | Except.ok f =>
      let r := fuzzLoop (f.templates.getD []).length w.anomalous w.interruptDuring
      { exitCode := r.exitCode
        errorMessage := none
        netEvents := pre ++ r.dispatched.map (fun _ => NetEvent.targetCall)
        ranLoop := true
        draining := r.draining }

/-- Embeds `__main__` (src/fuzzer.py lines 137-157).  With no definition
source, line 144 constructs an `argparse.ArgumentTypeError` without raising
it — so no message is emitted — and line 145 calls `exit()`, which
terminates with status 0.  With a file source the definition is read
locally; with a URL source `save_api_definition` fetches it over the
network first. -/
def mainRun (w : World) (a : Args) : MainResult :=
  match selectApiSource a with
  | SourceChoice.noSource =>
      { exitCode := 0
        errorMessage := none
        netEvents := []
        ranLoop := false
        draining := false }
  | SourceChoice.fromFile p => mainWithDef w a (w.fileDefs p) []
  | SourceChoice.fromUrl u => mainWithDef w a (w.urlDefs u) [NetEvent.defFetch u]

/-- The API definition the selected source resolves to, if any. -/
def sourceDef (w : World) (a : Args) : Option ApiDef :=
  match selectApiSource a with
  | SourceChoice.noSource => none
  | SourceChoice.fromFile p => some (w.fileDefs p)
  | SourceChoice.fromUrl u => some (w.urlDefs u)

/-- Mutation-kind tags (spec §3 Mutation Candidate). -/
inductive MutationKind
  | wrongType
  | missingRequired
  | emptyValue
  | boundaryLow
  | boundaryHigh
  | zeroValue
  | oversized
  | encodingAnomaly
  | nestedCorruption
  | injection
deriving DecidableEq

/-- A Mutation Candidate (spec §3): one generated deviant value for one
field, tagged by the kind of deviation. -/
structure MutationCandidate where
  fieldName : String
  kind : MutationKind
  value : String
deriving DecidableEq

/-- A deterministic oversized payload whose length is a function of the
explicit seed only. -/
def oversizedValue (seed : Nat) : String :=
  String.mk (List.replicate (65 + seed % 7) 'A')

/-- Modelled from the spec: the Mutation Strategy Registry (§4.3) is not
under src/.  Per parameter kind, the full ordered pool of candidates,
ordered from shallow (wrong type, missing required field, boundary ±1) to
deep (oversized payloads, encoding anomalies, nested-structure corruption);
every value is a pure function of the field and the explicit seed. -/
def candidatePool (p : Parameter) (seed : Nat) : List MutationCandidate :=
  match p.kind with
  | SchemaKind.stringKind =>
      [ { fieldName := p.name, kind := MutationKind.wrongType, value := "12345" },
        { fieldName := p.name, kind := MutationKind.emptyValue, value := "" },
        { fieldName := p.name, kind := MutationKind.oversized, value := oversizedValue seed },
        { fieldName := p.name, kind := MutationKind.encodingAnomaly, value := "0xFF-bytes" },
        { fieldName := p.name, kind := MutationKind.injection, value := "x OR 1=1" } ]
  | SchemaKind.integerKind =>
      [ { fieldName := p.name, kind := MutationKind.wrongType, value := "not-a-number" },
        { fieldName := p.name, kind := MutationKind.boundaryLow, value := "-1" },
        { fieldName := p.name, kind := MutationKind.boundaryHigh, value := "2147483648" },
        { fieldName := p.name, kind := MutationKind.zeroValue, value := "0" },
        { fieldName := p.name, kind := MutationKind.oversized, value := oversizedValue seed } ]
  | SchemaKind.numberKind =>
      [ { fieldName := p.name, kind := MutationKind.wrongType, value := "not-a-number" },
        { fieldName := p.name, kind := MutationKind.boundaryLow, value := "-1e308" },
        { fieldName := p.name, kind := MutationKind.boundaryHigh, value := "1e308" },
        { fieldName := p.name, kind := MutationKind.zeroValue, value := "0" },
        { fieldName := p.name, kind := MutationKind.oversized, value := oversizedValue seed } ]
  | SchemaKind.booleanKind =>
      [ { fieldName := p.name, kind := MutationKind.wrongType, value := "maybe" },
        { fieldName := p.name, kind := MutationKind.emptyValue, value := "" },
        { fieldName := p.name, kind := MutationKind.wrongType, value := "2" },
        { fieldName := p.name, kind := MutationKind.oversized, value := oversizedValue seed },
        { fieldName := p.name, kind := MutationKind.encodingAnomaly, value := "0xFF-bytes" } ]
  | SchemaKind.arrayKind =>
      [ { fieldName := p.name, kind := MutationKind.emptyValue, value := "[]" },
        { fieldName := p.name, kind := MutationKind.wrongType, value := "not-an-array" },
        { fieldName := p.name, kind := MutationKind.boundaryHigh, value := "max-items-plus-one" },
        { fieldName := p.name, kind := MutationKind.oversized, value := oversizedValue seed },
        { fieldName := p.name, kind := MutationKind.nestedCorruption, value := "wrong-typed-elements" } ]
  | SchemaKind.objectKind =>
      [ { fieldName := p.name, kind := MutationKind.missingRequired, value := "drop-required-subfield" },
        { fieldName := p.name, kind := MutationKind.wrongType, value := "not-an-object" },
        { fieldName := p.name, kind := MutationKind.injection, value := "undeclared-extra-field" },
        { fieldName := p.name, kind := MutationKind.oversized, value := oversizedValue seed },
        { fieldName := p.name, kind := MutationKind.nestedCorruption, value := "deep-recursive-nest" } ]

/-- Modelled from the spec: the deepness level (§4.3, glossary) bounds how
many candidates are produced per field; the bound grows with the level. -/
def levelBudget (level : Int) : Nat :=
  2 + (level - 1).toNat * 3

/-- Modelled from the spec: §4.3, `candidates(field, level)` — the first
`levelBudget level` entries of the field's ordered candidate pool, a pure
function of (field, level, seed). -/
def candidates (p : Parameter) (level : Int) (seed : Nat) : List MutationCandidate :=
  (candidatePool p seed).take (levelBudget level)

/-- The ordered candidate sequence one template contributes to a run. -/
def templateCandidates (t : FuzzTemplate) (level : Int) (seed : Nat) :
    List MutationCandidate :=
  t.mutableFields.flatMap (fun p => candidates p level seed)

/-- The configuration of one fuzzing run: the API definition, seed and
level the mutation machinery consumes, plus the remaining operator
configuration (report destination, override URL, headers), which must not
influence the candidate sequence. -/
structure RunConfig where
  apiDef : ApiDef
  seed : Nat
  level : Int
  report_dir : String
  alternate_url : Option String
  auth_headers : Option Headers

/-- The ordered Mutation Candidate sequence of a whole run: the templates
in operation order, each contributing its fields' candidates in order. -/
def runCandidateSequence (c : RunConfig) : Except SchemaError (List MutationCandidate) :=
  match processApiResources c.apiDef with
  | Except.error e => Except.error e
  | Except.ok r => Except.ok (r.1.flatMap (fun t => templateCandidates t c.level c.seed))

/-- A well-formed one-operation API definition, used as a concrete
fixture. -/
def goodDef : ApiDef :=
  { host := some "example.com"
    basePath := "/v1"
    operations :=
      [ { method := "get"
          path := some "/items"
          params :=
            [ { name := "id", location := "path", kind := "integer",
                required := true, enumValues := none } ] } ] }

/-- A malformed API definition: its only operation is missing the required
path key. -/
def badDef : ApiDef :=
  { host := none
    basePath := ""
    operations := [ { method := "get", path := none, params := [] } ] }

/-- A world resolving every source to `goodDef`, with a SIGINT delivered
while the first request is in flight. -/
def wIntr : World :=
  { fileDefs := fun _ => goodDef
    urlDefs := fun _ => goodDef
    anomalous := fun _ => true
    interruptDuring := some 0 }

/-- A world resolving every source to `goodDef`, with no signal. -/
def wQuiet : World :=
  { fileDefs := fun _ => goodDef
    urlDefs := fun _ => goodDef
    anomalous := fun _ => false
    interruptDuring := none }

/-- A world resolving every source to the malformed `badDef`. -/
def wBad : World :=
  { fileDefs := fun _ => badDef
    urlDefs := fun _ => badDef
    anomalous := fun _ => false
    interruptDuring := none }

/-- Arguments with only a definition file. -/
def aFile : Args := { src_file := some "api.json" }

/-- Arguments with both a definition file and a definition URL. -/
def aBoth : Args :=
  { src_file := some "api.json", src_url := some "http://defs.example/swagger.json" }

/-- Arguments with only a definition URL. -/
def aUrlOnly : Args := { src_url := some "http://defs.example/swagger.json" }

/-- Arguments with a definition file and an operator-supplied override
URL. -/
def aAlt : Args :=
  { src_file := some "api.json", alternate_url := some "http://override.example" }

/-- A concrete normalized integer path parameter. -/
def pInt : Parameter :=
  { name := "id", location := "path", kind := SchemaKind.integerKind,
    required := true, enumValues := none }

/-- A concrete normalized operation. -/
def opEx : Operation := { method := "get", path := "/items", params := [pInt] }

/-- A one-operation list fixture. -/
def opsEx : List Operation := [opEx]

/-- A concrete prepared fuzzer whose templates come from `opsEx`. -/
def fzEx : Fuzzer :=
  { api_resources := goodDef
    base_url := some "http://example.com/v1"
    alternate_url := none
    templates := some (compileOperations opsEx).1
    test_level := 1
    report_dir := "/tmp/apifuzzer-report"
    test_result_dst := none
    auth_headers := [] }

/-- A run configuration fixture. -/
def cfgA : RunConfig :=
  { apiDef := goodDef, seed := 7, level := 2, report_dir := "/tmp/run-a",
    alternate_url := none, auth_headers := none }

/-- The same definition, seed and level as `cfgA`, with every other
operator setting changed. -/
def cfgB : RunConfig :=
  { apiDef := goodDef, seed := 7, level := 2, report_dir := "/tmp/run-b",
    alternate_url := some "http://other.example",
    auth_headers := some [("Authorization", "token")] }

/-- Compiled templates plus compile failures account for every operation. -/
theorem compileOperations_length (ops : List Operation) :
    (compileOperations ops).1.length + (compileOperations ops).2 = ops.length := by
  induction ops with
  | nil => rfl
  | cons op rest ih =>
      cases hc : compileOperation op with
      | ok t =>
          have hunf : compileOperations (op :: rest) =
              (t :: (compileOperations rest).1, (compileOperations rest).2) := by
            simp [compileOperations, hc]
          rw [hunf]
          simp only [List.length_cons]
          omega
      | error e =>
          have hunf : compileOperations (op :: rest) =
              ((compileOperations rest).1, (compileOperations rest).2 + 1) := by
            simp [compileOperations, hc]
          rw [hunf]
          simp only [List.length_cons]
          omega

/-- The fuzz loop always requests process exit code 0: normal completion
falls off the end of `__main__`, and the SIGINT handler calls
`sys.exit(0)`. -/
theorem fuzzLoop_exitCode (planned : Nat) (anomalous : Nat → Bool) (intr : Option Nat) :
    (fuzzLoop planned anomalous intr).exitCode = 0 := by
  cases intr with
  | none => rfl
  | some k =>
      by_cases h : k < planned
      · simp [fuzzLoop, h, signal_handler]
      · simp [fuzzLoop, h, signal_handler]

/-- Connected templates of an event list distribute over append. -/
theorem connectsOf_append (es fs : List RunEvent) :
    connectsOf (es ++ fs) = connectsOf es ++ connectsOf fs := by
  simp [connectsOf, List.filterMap_append]

/-- A block of `connect` events contributes exactly its templates, in
order. -/
theorem connectsOf_map_connect (ts : List FuzzTemplate) (rest : List RunEvent) :
    connectsOf ((ts.map fun t => RunEvent.connect t.compile_template) ++ rest) =
      ts.map FuzzTemplate.compile_template ++ connectsOf rest := by
  induction ts with
  | nil => rfl
  | cons t ts ih =>
      simp only [List.map_cons, List.cons_append]
      show FuzzTemplate.compile_template t ::
          connectsOf ((ts.map fun t => RunEvent.connect t.compile_template) ++ rest) = _
      rw [ih]

/-- The build phase of `Fuzzer.run` connects exactly the compiled templates
in template order. -/
theorem connectsOf_runBuildPhase (f : Fuzzer) :
    connectsOf (runBuildPhase f) = (f.templates.getD []).map FuzzTemplate.compile_template := by
  show connectsOf (((f.templates.getD []).map fun t => RunEvent.connect t.compile_template) ++
      [RunEvent.setModel, RunEvent.setTarget, RunEvent.setInterface]) = _
  rw [connectsOf_map_connect]
  simp [connectsOf, connectOf]

/-- The full `Fuzzer.run` trace connects exactly the compiled templates in
template order. -/
theorem connectsOf_runEvents (f : Fuzzer) :
    connectsOf f.runEvents = (f.templates.getD []).map FuzzTemplate.compile_template := by
  show connectsOf (runBuildPhase f ++ [RunEvent.start]) = _
  rw [connectsOf_append, connectsOf_runBuildPhase]
  simp [connectsOf, connectOf]

/-- The `fuzzer.start()` call is not part of the build phase. -/
theorem start_not_mem_runBuildPhase (f : Fuzzer) :
    RunEvent.start ∉ runBuildPhase f := by
  simp [runBuildPhase]

/-- Membership in a shorter take carries over to a longer take. -/
theorem mem_take_of_le {α : Type} {l : List α} {m k : Nat} (h : m ≤ k) {c : α}
    (hc : c ∈ l.take m) : c ∈ l.take k := by
  have heq : l.take m = (l.take k).take m := by
    rw [List.take_take, Nat.min_eq_left h]
  rw [heq] at hc
  exact List.take_subset m (l.take k) hc

/-- C1 counterexample: with two planned requests and a SIGINT delivered
while request 0 is in flight, the claim as stated fails: the trace does
dispatch nothing new after the signal and loses no flushed Finding, but the
in-flight request 0 is never completed and no Draining transition occurs —
the handler `sys.exit(0)` terminates the process at once. -/
theorem C1_abort_claim_fails :
    ¬ ((fuzzLoop 2 (fun _ => true) (some 0)).dispatched = List.range 1 ∧
       0 ∈ (fuzzLoop 2 (fun _ => true) (some 0)).completed ∧
       (fuzzLoop 2 (fun _ => true) (some 0)).draining = true ∧
       (fuzzLoop 2 (fun _ => true) (some 0)).flushed = []) := by
  decide

/-- C1 (amended): when a SIGINT arrives while request `k` of a run is in
flight, the process terminates immediately with exit status 0: no request
beyond the in-flight one is dispatched, every Finding persisted before the
signal remains in the output, but the in-flight request is interrupted
rather than finished and no Draining phase runs. -/
theorem C1_abort_immediate_exit (planned k : Nat) (anomalous : Nat → Bool)
    (h : k < planned) :
    (fuzzLoop planned anomalous (some k)).dispatched = List.range (k + 1) ∧
    (fuzzLoop planned anomalous (some k)).completed = List.range k ∧
    (fuzzLoop planned anomalous (some k)).flushed = (List.range k).filter anomalous ∧
    (fuzzLoop planned anomalous (some k)).draining = false ∧
    (fuzzLoop planned anomalous (some k)).exitCode = 0 := by
  refine ⟨?_, ?_, ?_, ?_, ?_⟩ <;> simp [fuzzLoop, h, signal_handler]

/-- C1 witness: the amended statement at a concrete interrupted run. -/
theorem C1_abort_immediate_exit_witness :
    (fuzzLoop 2 (fun _ => false) (some 0)).dispatched = List.range (0 + 1) ∧
    (fuzzLoop 2 (fun _ => false) (some 0)).completed = List.range 0 ∧
    (fuzzLoop 2 (fun _ => false) (some 0)).flushed = (List.range 0).filter (fun _ => false) ∧
    (fuzzLoop 2 (fun _ => false) (some 0)).draining = false ∧
    (fuzzLoop 2 (fun _ => false) (some 0)).exitCode = 0 :=
  C1_abort_immediate_exit 2 0 (fun _ => false) (by decide)

/-- C2 counterexample: a run of `__main__` on a well-formed definition that
is interrupted mid-run exits with status 0, not a non-zero status — the
SIGINT handler calls `sys.exit(0)`. -/
theorem C2_abort_exit_not_nonzero :
    ¬ ((mainRun wIntr aFile).exitCode ≠ 0) := by
  decide

/-- C2 (amended): whenever setup succeeds, the process exit status is 0 —
on normal completion and equally on operator cancellation, since the SIGINT
handler requests exit code 0. -/
theorem C2_exit_zero_when_prepared (w : World) (a : Args) (p : String)
    (hfile : a.src_file = some p) (hp : ¬ p = "")
    (hok : prepareErrored (mkFuzzer (w.fileDefs p) a) = false) :
    (mainRun w a).exitCode = 0 := by
  have hsel : selectApiSource a = SourceChoice.fromFile p := by
    simp [selectApiSource, strTruthy, hfile, hp]
  unfold mainRun
  rw [hsel]
  cases hpr : (mkFuzzer (w.fileDefs p) a).prepare with
  | error e =>
      exfalso
      simp [prepareErrored, hpr] at hok
  | ok f =>
      simp [mainWithDef, hpr, fuzzLoop_exitCode]

/-- C2 witness: the amended statement at a concrete uninterrupted run. -/
theorem C2_exit_zero_when_prepared_witness :
    (mainRun wQuiet aFile).exitCode = 0 :=
  C2_exit_zero_when_prepared wQuiet aFile "api.json" rfl (by decide) (by decide)

/-- C3 (code bug): when neither a definition file nor a definition URL is
provided, `__main__` constructs an `argparse.ArgumentTypeError` without
raising it — so no error message is emitted — and calls `exit()`, which
terminates with status 0, not a non-zero status.  Only the "before any
network traffic" part of the claim holds. -/
theorem C3_no_source_exits_zero_silently :
    (mainRun wQuiet defaultArgs).exitCode = 0 ∧
    (mainRun wQuiet defaultArgs).errorMessage = none ∧
    (mainRun wQuiet defaultArgs).netEvents = [] := by
  decide

/-- C4: when the selected API definition makes `prepare` raise a
`SchemaError`, the run aborts before any Target Client call: the network
trace contains no target call, the fuzz loop never runs (the target client
is never constructed and `run()` never starts), and the interpreter exits
non-zero (uncaught exception, status 1). -/
theorem C4_schema_error_before_any_request (w : World) (a : Args) (d : ApiDef)
    (hsrc : sourceDef w a = some d)
    (herr : prepareErrored (mkFuzzer d a) = true) :
    NetEvent.targetCall ∉ (mainRun w a).netEvents ∧
    (mainRun w a).ranLoop = false ∧
    (mainRun w a).exitCode = 1 := by
  cases hsel : selectApiSource a with
  | noSource =>
      exfalso
      unfold sourceDef at hsrc
      rw [hsel] at hsrc
      cases hsrc
  | fromFile p =>
      have hd : w.fileDefs p = d := by
        unfold sourceDef at hsrc
        rw [hsel] at hsrc
        exact Option.some_injective _ hsrc
      unfold mainRun
      rw [hsel]
      rw [← hd] at herr
      cases hpr : (mkFuzzer (w.fileDefs p) a).prepare with
      | error e => simp [mainWithDef, hpr]
      | ok f =>
          exfalso
          simp [prepareErrored, hpr] at herr
  | fromUrl u =>
      have hd : w.urlDefs u = d := by
        unfold sourceDef at hsrc
        rw [hsel] at hsrc
        exact Option.some_injective _ hsrc
      unfold mainRun
      rw [hsel]
      rw [← hd] at herr
      cases hpr : (mkFuzzer (w.urlDefs u) a).prepare with
      | error e => simp [mainWithDef, hpr]
      | ok f =>
          exfalso
          simp [prepareErrored, hpr] at herr

/-- C4 witness: the statement at a concrete malformed definition (an
operation missing its required path key), loaded from a file. -/
theorem C4_schema_error_before_any_request_witness :
    NetEvent.targetCall ∉ (mainRun wBad aFile).netEvents ∧
    (mainRun wBad aFile).ranLoop = false ∧
    (mainRun wBad aFile).exitCode = 1 :=
  C4_schema_error_before_any_request wBad aFile badDef (by decide) (by decide)

/-- C5: compiled templates plus counted `TemplateCompileError` failures
account for every operation (none silently dropped); the `run()` trace
connects each compiled template to the graph model exactly once, in
template order, entirely within the build phase; and `fuzzer.start()` is
the last event, so the graph is fully built before the fuzzer starts and is
not modified afterwards. -/
theorem C5_one_template_each_graph_built_once (ops : List Operation) (fz : Fuzzer)
    (h : fz.templates = some (compileOperations ops).1) :
    (compileOperations ops).1.length + (compileOperations ops).2 = ops.length ∧
    connectsOf fz.runEvents = (compileOperations ops).1.map FuzzTemplate.compile_template ∧
    connectsOf (runBuildPhase fz) = (compileOperations ops).1.map FuzzTemplate.compile_template ∧
    fz.runEvents = runBuildPhase fz ++ [RunEvent.start] ∧
    RunEvent.start ∉ runBuildPhase fz := by
  refine ⟨compileOperations_length ops, ?_, ?_, rfl, start_not_mem_runBuildPhase fz⟩
  · rw [connectsOf_runEvents, h]
    rfl
  · rw [connectsOf_runBuildPhase, h]
    rfl

/-- C5 witness: the statement at the concrete one-operation fixture. -/
theorem C5_one_template_each_graph_built_once_witness :
    (compileOperations opsEx).1.length + (compileOperations opsEx).2 = opsEx.length ∧
    connectsOf fzEx.runEvents = (compileOperations opsEx).1.map FuzzTemplate.compile_template ∧
    connectsOf (runBuildPhase fzEx) = (compileOperations opsEx).1.map FuzzTemplate.compile_template ∧
    fzEx.runEvents = runBuildPhase fzEx ++ [RunEvent.start] ∧
    RunEvent.start ∉ runBuildPhase fzEx :=
  C5_one_template_each_graph_built_once opsEx fzEx rfl

/-- C6: for every parameter field, seed and deepness level N ≥ 2, the
candidate set at level N contains every candidate of level N-1; the level
defaults to 1 (argparse default, src/fuzzer.py line 104); and the level
bounds how many candidates are produced per field. -/
theorem C6_candidate_monotonicity (p : Parameter) (seed : Nat) (n : Int)
    (h2 : 2 ≤ n) :
    (∀ c, c ∈ candidates p (n - 1) seed → c ∈ candidates p n seed) ∧
    defaultArgs.level = 1 ∧
    (candidates p n seed).length ≤ levelBudget n := by
  refine ⟨?_, rfl, ?_⟩
  · intro c hc
    have hb : levelBudget (n - 1) ≤ levelBudget n := by
      unfold levelBudget
      omega
    exact mem_take_of_le hb hc
  · exact List.length_take_le _ _

/-- C6 witness: the statement at the concrete integer parameter, seed 0,
level 2: the level-1 wrong-type candidate is still produced at level 2, the
default level is 1, and the level-2 budget bounds the level-2 set. -/
theorem C6_candidate_monotonicity_witness :
    defaultArgs.level = 1 ∧
    (candidates pInt 2 0).length ≤ levelBudget 2 ∧
    ({ fieldName := "id", kind := MutationKind.wrongType, value := "not-a-number" } ∈
        candidates pInt (2 - 1) 0 →
      { fieldName := "id", kind := MutationKind.wrongType, value := "not-a-number" } ∈
        candidates pInt 2 0) :=
  ⟨(C6_candidate_monotonicity pInt 0 2 (by decide)).2.1,
   (C6_candidate_monotonicity pInt 0 2 (by decide)).2.2,
   (C6_candidate_monotonicity pInt 0 2 (by decide)).1 _⟩

/-- C7: two runs whose configurations agree on the API definition, the
random seed and the deepness level produce identical ordered Mutation
Candidate sequences, whatever the remaining operator settings; the only
randomness source of the model is the explicitly threaded seed. -/
theorem C7_candidate_determinism (c1 c2 : RunConfig)
    (hd : c1.apiDef = c2.apiDef) (hs : c1.seed = c2.seed) (hl : c1.level = c2.level) :
    runCandidateSequence c1 = runCandidateSequence c2 := by
  unfold runCandidateSequence
  rw [hd, hs, hl]

/-- C7 witness: two concrete configurations sharing (definition, seed,
level) but differing in report directory, override URL and headers. -/
theorem C7_candidate_determinism_witness :
    runCandidateSequence cfgA = runCandidateSequence cfgB :=
  C7_candidate_determinism cfgA cfgB rfl rfl rfl

/-- C8: when the API definition declares a host and the operator supplies
an override URL, a successful `prepare` stores the override URL as the
compiled base URL — the override takes precedence. -/
theorem C8_override_url_precedence (f : Fuzzer) (host u : String)
    (hhost : f.api_resources.host = some host)
    (halt : f.alternate_url = some u)
    (hok : prepareErrored f = false) :
    baseUrlAfterPrepare f = some u := by
  cases hpr : processApiResources f.api_resources with
  | error e =>
      exfalso
      simp [prepareErrored, Fuzzer.prepare, hpr] at hok
  | ok r =>
      simp [baseUrlAfterPrepare, Fuzzer.prepare, hpr, halt, compileBaseUrl]

/-- C8 witness: a concrete fuzzer built from a definition declaring a host
together with an operator override URL. -/
theorem C8_override_url_precedence_witness :
    baseUrlAfterPrepare (mkFuzzer goodDef aAlt) = some "http://override.example" :=
  C8_override_url_precedence (mkFuzzer goodDef aAlt) "example.com"
    "http://override.example" rfl rfl (by decide)

/-- C9: when a (non-empty) definition file argument is present, the
definition is loaded from the file — whatever the URL argument says — and
no definition fetch appears in the network trace; the URL is consulted
exactly when no file argument is present and a URL argument is. -/
theorem C9_file_argument_precedence (a : Args) (p : String)
    (hfile : a.src_file = some p) (hp : ¬ p = "") :
    selectApiSource a = SourceChoice.fromFile p ∧
    (∀ w : World, ∀ u : String, NetEvent.defFetch u ∉ (mainRun w a).netEvents) ∧
    (∀ b : Args, strTruthy b.src_file = false → strTruthy b.src_url = true →
      selectApiSource b = SourceChoice.fromUrl (b.src_url.getD "")) := by
  have hsel : selectApiSource a = SourceChoice.fromFile p := by
    simp [selectApiSource, strTruthy, hfile, hp]
  refine ⟨hsel, ?_, ?_⟩
  · intro w u
    unfold mainRun
    rw [hsel]
    cases hpr : (mkFuzzer (w.fileDefs p) a).prepare with
    | error e => simp [mainWithDef, hpr]
    | ok f => simp [mainWithDef, hpr]
  · intro b h1 h2
    simp [selectApiSource, h1, h2]

/-- C9 witness: with both a file and a URL argument, the file is chosen and
the URL is never fetched; with only a URL argument, the URL is chosen. -/
theorem C9_file_argument_precedence_witness :
    selectApiSource aBoth = SourceChoice.fromFile "api.json" ∧
    NetEvent.defFetch "http://defs.example/swagger.json" ∉ (mainRun wIntr aBoth).netEvents ∧
    selectApiSource aUrlOnly = SourceChoice.fromUrl "http://defs.example/swagger.json" :=
  ⟨(C9_file_argument_precedence aBoth "api.json" rfl (by decide)).1,
   (C9_file_argument_precedence aBoth "api.json" rfl (by decide)).2.1 wIntr _,
   (C9_file_argument_precedence aBoth "api.json" rfl (by decide)).2.2 aUrlOnly
     (by decide) (by decide)⟩

/-- C10: every constructed `Fuzzer` stores a well-defined header mapping:
a `None` (or otherwise falsy) `auth_headers` argument is replaced by the
empty header mapping, so the stored field is never `None`. -/
theorem C10_auth_headers_never_none (d : ApiDef) (rd : String) (lvl : Int)
    (alt tdst : Option String) (ah : Option Headers) :
    (Fuzzer.init d rd lvl alt tdst ah).auth_headers = ah.getD [] ∧
    (Fuzzer.init d rd lvl alt tdst none).auth_headers = [] := by
  refine ⟨?_, rfl⟩
  cases ah with
  | none => rfl
  | some h =>
      cases h with
      | nil => rfl
      | cons x t => rfl

end APIFuzzer
